import Mathlib

/-
  Verification development for the specviz unit-aware plotting and
  statistics core.

  The embedding follows the Python source:
    * src/specviz/widgets/statistics.py      (region resolution, statistics)
    * src/specviz/core/items.py              (DataItem, PlotDataItem)
    * src/specviz/widgets/unit_change_dialog.py (UnitChangeDialog.on_accepted)

  External collaborators (the astropy unit system and the specutils
  region-to-pixel mapping) are modelled as small concrete Lean functions
  whose behaviour matches the library semantics on the units and data
  used here; comments at each definition say what is modelled.
-/

namespace Specviz

/-- Physical dimension of a unit.  Models astropy's physical types for the
units exercised by this development. -/
inductive Dim where
  | dimensionless
  | length
  | frequency
  | energy
  | wavenumber
  | fluxDensityWav
  | fluxDensityFreq
  deriving DecidableEq, Repr

/-- A unit: a display name together with its physical dimension.  Models an
astropy `Unit` object at the granularity the source code observes. -/
structure AUnit where
  name : String
  dim : Dim
  deriving DecidableEq, Repr

/-- The dimensionless unit, astropy's `u.Unit("")`. -/
def emptyUnit : AUnit := ⟨"", Dim.dimensionless⟩

/-- Comparison `unit == ""` as done in the Python source: an astropy unit
equals the empty unit exactly when it is dimensionless. -/
def AUnit.isEmptyUnit (x : AUnit) : Bool := x.dim == Dim.dimensionless

/-- Dimensions related by astropy's `u.spectral()` equivalency
(wavelength, frequency, energy, wavenumber are inter-convertible). -/
def isSpectralDim : Dim → Bool
  | Dim.length => true
  | Dim.frequency => true
  | Dim.energy => true
  | Dim.wavenumber => true
  | _ => false

/-- Dimensions related by astropy's `u.spectral_density(ctx)` equivalency
(flux-density-per-wavelength and flux-density-per-frequency forms). -/
def isFluxDensityDim : Dim → Bool
  | Dim.fluxDensityWav => true
  | Dim.fluxDensityFreq => true
  | _ => false

/-- Model of `a.is_equivalent(b)` with NO equivalencies (astropy default):
convertible exactly when the physical dimensions agree. -/
def isEquivalentNoEq (a b : AUnit) : Bool := a.dim == b.dim

/-- Model of `a.is_equivalent(b, equivalencies=u.spectral())`. -/
def spectralEquiv (a b : AUnit) : Bool :=
  a.dim == b.dim || (isSpectralDim a.dim && isSpectralDim b.dim)

/-- Model of `a.is_equivalent(b, equivalencies=u.spectral_density(ctx))`.
The context fixes conversion values, not reachability, so it is unused in
the reachability check. -/
def spectralDensityEquiv (_ctx : List ℚ) (a b : AUnit) : Bool :=
  a.dim == b.dim || (isFluxDensityDim a.dim && isFluxDensityDim b.dim)

/-- Concrete units used by witnesses and counterexamples. -/
def nm : AUnit := ⟨"nm", Dim.length⟩

def Hz : AUnit := ⟨"Hz", Dim.frequency⟩

def Jy : AUnit := ⟨"Jy", Dim.fluxDensityFreq⟩

def ergScmA : AUnit := ⟨"erg / (Angstrom cm2 s)", Dim.fluxDensityWav⟩

/-- Model of `u.Unit(text)` free-text parsing over the units of this
development; unknown text fails (astropy raises `ValueError`). -/
def parseUnit : String → Option AUnit
  | "" => some emptyUnit
  | " " => some emptyUnit
  | "nm" => some nm
  | "Hz" => some Hz
  | "Jy" => some Jy
  | "erg / (Angstrom cm2 s)" => some ergScmA
  | _ => none

/-- A spectrum as the statistics code sees it: name of the owning data
item, spectral-axis sample values with their unit, and flux values with
their unit.  Axis and flux values are modelled as rationals expressed in
one common scale. -/
structure SpectrumM where
  name : String
  axisValues : List ℚ
  axisUnit : AUnit
  flux : List ℚ
  fluxUnit : AUnit
  deriving DecidableEq, Repr

/-- A specutils `SpectralRegion` with definite bounds: a (lower, upper)
pair sharing one unit, exactly as `pos_to_spectral_region` constructs it. -/
structure SRegion where
  lower : ℚ
  upper : ℚ
  unit : AUnit
  deriving DecidableEq, Repr

/-- Maximum of the spectral-axis samples, `spectral_axis.max()`. -/
def axisMax (axis : List ℚ) : ℚ := axis.foldl max (axis.headD 0)

/-- Minimum of the spectral-axis samples, `spectral_axis.min()`. -/
def axisMin (axis : List ℚ) : ℚ := axis.foldl min (axis.headD 0)

/-- Embedding of `check_unit_compatibility` (statistics.py lines 24-32).
A region built by `pos_to_spectral_region` always carries its shared unit
on both bounds, so the source's `lower is not None` / `upper is not None`
branches collapse to reading that unit; the check is the PLAIN
`spec_unit.is_equivalent(region_unit)` with no equivalencies. -/
def checkUnitCompatibility (spec : SpectrumM) (region : SRegion) : Bool :=
  isEquivalentNoEq spec.axisUnit region.unit

/-- Embedding of `clip_region` (statistics.py lines 35-46): out-of-domain
regions yield `none`, otherwise each bound is clipped to the axis domain. -/
def clipRegion (axis : List ℚ) (region : SRegion) : Option SRegion :=
  if region.lower > axisMax axis ∨ region.upper < axisMin axis then
    none
  else
    let lo := if region.lower < axisMin axis then axisMin axis else region.lower
    let hi := if region.upper > axisMax axis then axisMax axis else region.upper
    some { region with lower := lo, upper := hi }

/-- Raw interactive selection handed to `pos_to_spectral_region`: either
not an astropy `Quantity` at all, or a two-element quantity with a unit. -/
inductive RawPos where
  | notQuantity
  | q (unit : AUnit) (a b : ℚ)
  deriving DecidableEq, Repr

/-- Embedding of `StatisticsWidget.pos_to_spectral_region`
(statistics.py lines 176-198): reject non-quantities, unitless input and
equal bounds; swap reversed bounds ascending; build the region. -/
def posToSpectralRegion : RawPos → Option SRegion
  | RawPos.notQuantity => none
  | RawPos.q unit a b =>
    if unit.isEmptyUnit || a == b then none
    else if a > b then some ⟨b, a, unit⟩
    else some ⟨a, b, unit⟩

/-- Modelled from the spec (§6, external collaborator): the specutils
region-to-pixel mapping used by `SpectralRegion.to_pixel` — boundary
sample selection, here the index of the first axis sample not below the
value (the number of samples strictly below it). -/
def toPixelIndex (axis : List ℚ) (x : ℚ) : Nat :=
  (axis.filter (fun v => v < x)).length

/-- Modelled from the spec (§4.3 step 9, external collaborator): the
specutils `SpectralRegion.extract` — the sub-spectrum whose axis samples
lie inside the region's bounds. -/
def extractRegion (spec : SpectrumM) (region : SRegion) : SpectrumM :=
  { spec with
    axisValues := spec.axisValues.filter
      (fun v => region.lower ≤ v && v ≤ region.upper),
    flux := (spec.axisValues.zip spec.flux).filterMap
      (fun p => if region.lower ≤ p.1 && p.1 ≤ region.upper then some p.2 else none) }

/-- numpy `flux.mean()`. -/
def npMean (xs : List ℚ) : ℚ := xs.sum / xs.length

/-- numpy `np.median(flux)`: middle of the sorted data, or the average of
the two middle elements for even length. -/
def npMedian (xs : List ℚ) : ℚ :=
  let s := List.insertionSort (· ≤ ·) xs
  let n := s.length
  if n % 2 = 1 then s.getD (n / 2) 0
  else (s.getD (n / 2 - 1) 0 + s.getD (n / 2) 0) / 2

/-- Population variance: the radicand of numpy `flux.std()`. -/
def npVariance (xs : List ℚ) : ℚ :=
  (xs.map (fun x => (x - npMean xs) ^ 2)).sum / xs.length

/-- Mean square `flux.dot(flux) / len(flux)`: the radicand of the
source's rms. -/
def npMeanSquare (xs : List ℚ) : ℚ :=
  (xs.map (fun x => x ^ 2)).sum / xs.length

/-- numpy `np.trapz(flux)`: trapezoidal integral with unit sample
spacing. -/
def npTrapz (xs : List ℚ) : ℚ :=
  ((xs.zip xs.tail).map (fun p => (p.1 + p.2) / 2)).sum

/-- numpy `flux.max()`. -/
def npMax (xs : List ℚ) : ℚ :=
  match xs with
  | [] => 0
  | h :: t => t.foldl max h

/-- numpy `flux.min()`. -/
def npMin (xs : List ℚ) : ℚ :=
  match xs with
  | [] => 0
  | h :: t => t.foldl min h

/-- An exact statistic value: a rational, the square root of a rational
(`sqrtVal q` denotes √q), or a rational divided by such a square root
(`overSqrt a q` denotes a / √q).  This keeps the embedding of the
numpy computations exact and executable. -/
inductive StatVal where
  | val (q : ℚ)
  | sqrtVal (q : ℚ)
  | overSqrt (a q : ℚ)
  deriving DecidableEq, Repr

/-- Embedding of `compute_stats` (statistics.py lines 49-67): the dict of
eight statistics, as an ordered key-value list.  `stddev` is
√(npVariance), `rms` is √(npMeanSquare) and `snr = mean / rms`, encoded
exactly via `StatVal`.  The Python function is only meaningful on
non-empty flux (numpy would produce NaNs), which the embedding records as
`none`. -/
def computeStats (flux : List ℚ) : Option (List (String × StatVal)) :=
  if flux.isEmpty then none
  else
    some [("mean", StatVal.val (npMean flux)),
          ("median", StatVal.val (npMedian flux)),
          ("stddev", StatVal.sqrtVal (npVariance flux)),
          ("rms", StatVal.sqrtVal (npMeanSquare flux)),
          ("snr", StatVal.overSqrt (npMean flux) (npMeanSquare flux)),
          ("total", StatVal.val (npTrapz flux)),
          ("maxval", StatVal.val (npMax flux)),
          ("minval", StatVal.val (npMin flux))]

/-- Embedding of `StatisticsWidget._get_target_name` (statistics.py lines
221-237); the `%0.5g` float formatting is simplified to `toString`. -/
def getTargetName (name : String) (region : Option SRegion) : String :=
  match region with
  | none => "Data: " ++ name
  | some r =>
    "Data: " ++ (name ++ ("\nRegion Max: " ++ toString r.upper
      ++ "\nRegion Min: " ++ toString r.lower))

/-- The workspace state `update_statistics` reads: the currently selected
spectrum (`_get_workspace_spectrum`), the raw selected region position
(`workspace.selected_region_pos`), and whether an active region widget
exists (`workspace.selected_region is not None`). -/
structure Workspace where
  spec : Option SpectrumM
  selectedRegionPos : Option RawPos
  hasRegion : Bool
  deriving DecidableEq, Repr

/-- Embedding of `StatisticsWidget.update_statistics` (statistics.py lines
243-283) as a pure function from the workspace state to the emitted
(status string, statistics) pair, `none` statistics meaning cleared.  As
in the source, the success status re-resolves the (unclipped) region via
`_get_target_name`. -/
def updateStatistics (w : Workspace) : String × Option (List (String × StatVal)) :=
  match w.spec with
  | none => ("No data selected.", none)
  | some spec =>
    match w.selectedRegionPos.bind posToSpectralRegion with
    | some region =>
      if checkUnitCompatibility spec region then
        match clipRegion spec.axisValues region with
        | none => ("Region out of bound.", none)
        | some clipped =>
          if toPixelIndex spec.axisValues clipped.lower
              = toPixelIndex spec.axisValues clipped.upper then
            ("Region over single value.", none)
          else
            (getTargetName spec.name (some region),
             computeStats (extractRegion spec clipped).flux)
      else
        ("Region units are not compatible with selected data\x27s spectral axis units.",
         none)
    | none =>
      if w.hasRegion then ("Region has no units", none)
      else (getTargetName spec.name none, computeStats spec.flux)

/-- The slice of a `PlotDataItem` that the unit-compatibility checks read:
its record's native flux unit, native spectral-axis unit, and the
spectral-axis values supplied as conversion context. -/
structure PlotItemM where
  fluxUnit : AUnit
  spectralAxisUnit : AUnit
  axisValues : List ℚ
  deriving DecidableEq, Repr

/-- Embedding of `PlotDataItem.is_data_unit_compatible` (items.py lines
116-120): `self.data_item.flux.unit == "" or unit is not None and
flux.unit.is_equivalent(unit, equivalencies=spectral_density(axis))`.
The candidate is an `Option` because the source admits `None`. -/
def isDataUnitCompatible (it : PlotItemM) (unit : Option AUnit) : Bool :=
  it.fluxUnit.isEmptyUnit ||
    (match unit with
     | none => false
     | some uu => spectralDensityEquiv it.axisValues it.fluxUnit uu)

/-- Embedding of `PlotDataItem.is_spectral_axis_unit_compatible` (items.py
lines 122-126): `spectral_axis.unit == "" or unit is not None and
spectral_axis.unit.is_equivalent(unit, equivalencies=spectral())`. -/
def isSpectralAxisUnitCompatible (it : PlotItemM) (unit : Option AUnit) : Bool :=
  it.spectralAxisUnit.isEmptyUnit ||
    (match unit with
     | none => false
     | some uu => spectralEquiv it.spectralAxisUnit uu)

/-- A change notification observable from a `PlotDataItem` mutation:
either one of the series' own Qt signals, or `emitDataChanged` on the
owning record (`data_item`). -/
inductive Notif where
  | colorChanged (c : String)
  | widthChanged (w : Int)
  | visibilityChanged (b : Bool)
  | recordDataChanged
  deriving DecidableEq, Repr

/-- True for the series' own change signals, false for the owning
record's `emitDataChanged` notification. -/
def Notif.isSeriesNotif : Notif → Bool
  | Notif.recordDataChanged => false
  | _ => true

/-- The mutable display attributes of a `PlotDataItem` touched by the
color / width / zorder / visible setters. -/
structure PdiState where
  color : String
  width : Int
  zvalue : Int
  visible : Bool
  deriving DecidableEq, Repr

/-- Embedding of the `color` setter (items.py lines 156-160): assign,
emit `color_changed`, then `data_item.emitDataChanged()`. -/
def setColor (s : PdiState) (v : String) : PdiState × List Notif :=
  ({ s with color := v }, [Notif.colorChanged v, Notif.recordDataChanged])

/-- Embedding of the `width` setter (items.py lines 166-170): assign,
emit `width_changed`, then `data_item.emitDataChanged()`. -/
def setWidth (s : PdiState) (v : Int) : PdiState × List Notif :=
  ({ s with width := v }, [Notif.widthChanged v, Notif.recordDataChanged])

/-- Embedding of the `zorder` setter (items.py lines 176-179):
`setZValue` then `data_item.emitDataChanged()` — no series signal is
emitted (the class declares no zorder signal). -/
def setZorder (s : PdiState) (v : Int) : PdiState × List Notif :=
  ({ s with zvalue := v }, [Notif.recordDataChanged])

/-- Embedding of the `visible` setter (items.py lines 185-188): assign
and emit `visibility_changed` only — the record is not notified. -/
def setVisible (s : PdiState) (v : Bool) : PdiState × List Notif :=
  ({ s with visible := v }, [Notif.visibilityChanged v])

/-- A value stored in a `QStandardItem` data role: the name and
identifier strings, or the spectrum dataset. -/
inductive DIValue where
  | str (s : String)
  | spec (sp : SpectrumM)
  deriving DecidableEq, Repr

/-- Qt's `Qt.UserRole`. -/
def qtUserRole : Nat := 256

/-- `DataItem.NameRole = Qt.UserRole + 1` (items.py line 13). -/
def nameRole : Nat := qtUserRole + 1

/-- `DataItem.IdRole = Qt.UserRole + 2` (items.py line 14). -/
def idRole : Nat := qtUserRole + 2

/-- `DataItem.DataRole = Qt.UserRole + 3` (items.py line 15). -/
def dataRole : Nat := qtUserRole + 3

/-- A `DataItem` as its role storage: the `QStandardItem` map from role
number to stored value. -/
structure DataItemM where
  roles : Nat → Option DIValue

/-- `QStandardItem.setData(value, role)`: store `value` under `role`,
leaving every other role untouched. -/
def qsiSetData (it : DataItemM) (v : DIValue) (role : Nat) : DataItemM :=
  ⟨fun r => if r = role then some v else it.roles r⟩

/-- Embedding of `DataItem.__init__` (items.py lines 17-25): stores name,
identifier and dataset under their roles. -/
def mkDataItem (name identifier : String) (d : SpectrumM) : DataItemM :=
  qsiSetData
    (qsiSetData
      (qsiSetData ⟨fun _ => none⟩ (DIValue.str name) nameRole)
      (DIValue.str identifier) idRole)
    (DIValue.spec d) dataRole

/-- Embedding of the `DataItem.identifier` getter (items.py lines 27-29):
`self.data(self.IdRole)`. -/
def DataItemM.identifier (it : DataItemM) : Option DIValue := it.roles idRole

/-- Embedding of the `DataItem.name` setter (items.py lines 35-37):
`self.setData(value, self.NameRole)`. -/
def setName (it : DataItemM) (v : String) : DataItemM :=
  qsiSetData it (DIValue.str v) nameRole

/-- Embedding of `DataItem.set_data` (items.py lines 47-51):
`self.setData(data, self.DataRole)`. -/
def setDataItemData (it : DataItemM) (d : SpectrumM) : DataItemM :=
  qsiSetData it (DIValue.spec d) dataRole

/-- An operation a `DataItem` exposes after construction: a name
assignment or a `set_data` replacement. -/
inductive DataItemOp where
  | rename (s : String)
  | replaceData (d : SpectrumM)

/-- Apply one `DataItemOp`. -/
def applyOp (it : DataItemM) : DataItemOp → DataItemM
  | DataItemOp.rename s => setName it s
  | DataItemOp.replaceData d => setDataItemData it d

/-- The user's choice for one axis of the unit-change dialog: the
"Custom" entry with its free text, or a combo-box title. -/
inductive Choice where
  | custom (text : String)
  | combo (title : String)
  deriving DecidableEq, Repr

/-- The candidate lists built at dialog-open time: the equivalency-derived
unit lists and their parallel title-cased display strings
(unit_change_dialog.py lines 40-52). -/
structure DialogState where
  dataTitles : List String
  dataUnits : List AUnit
  spectralTitles : List String
  spectralUnits : List AUnit
  deriving DecidableEq, Repr

/-- The plot-scoped display units `on_accepted` mutates:
`plot_widget.data_unit` and `plot_widget.spectral_axis_unit`. -/
structure PlotWidgetS where
  dataUnit : AUnit
  spectralAxisUnit : AUnit
  deriving DecidableEq, Repr

/-- Resolution of one axis choice in `on_accepted`: the "Custom" branch
parses the free text (`u.Unit`, failure aborts) and rejects empty or
single-space text; the combo branch maps the title back to its canonical
unit through the parallel lists (`titles.index` — total on actual combo
contents, so a missing title is modelled as resolution failure). -/
def resolveChoice (titles : List String) (units : List AUnit) : Choice → Option AUnit
  | Choice.custom text =>
    match parseUnit text with
    | none => none
    | some uu => if text = "" ∨ text = " " then none else some uu
  | Choice.combo title => (titles.zip units).lookup title

/-- Embedding of `UnitChangeDialog.on_accepted` (unit_change_dialog.py
lines 202-297) as a pure function: resolve the flux choice, require every
plotted series to accept it, apply it to the plot widget; then do the
same for the spectral-axis choice; any failure returns early with
`False`.  The returned pair is the final plot-widget units and the
method's return value. -/
def onAccepted (dlg : DialogState) (items : List PlotItemM) (pw : PlotWidgetS)
    (fluxChoice spectralChoice : Choice) : PlotWidgetS × Bool :=
  match resolveChoice dlg.dataTitles dlg.dataUnits fluxChoice with
  | none => (pw, false)
  | some du =>
    if items.all (fun it => isDataUnitCompatible it (some du)) then
      let pw1 := { pw with dataUnit := du }
      match resolveChoice dlg.spectralTitles dlg.spectralUnits spectralChoice with
      | none => (pw1, false)
      | some su =>
        if items.all (fun it => isSpectralAxisUnitCompatible it (some su)) then
          ({ pw1 with spectralAxisUnit := su }, true)
        else (pw1, false)
    else (pw, false)

/-- Example spectral axis spanning [400, 900] nm. -/
def exampleAxis : List ℚ := [400, 500, 600, 700, 800, 900]

/-- Example spectrum: a two-sample nm axis with Jy flux. -/
def specNm : SpectrumM :=
  ⟨"sample", [400, 900], nm, [1, 2], Jy⟩

/-- Workspace whose selected region survives resolution and clipping but
maps both bounds to the same pixel index. -/
def wSingle : Workspace :=
  ⟨some specNm, some (RawPos.q nm 500 600), true⟩

/-- Workspace whose selected region carries a frequency unit against a
wavelength axis. -/
def wBadUnit : Workspace :=
  ⟨some specNm, some (RawPos.q Hz 500 600), true⟩

/-- Example dialog candidate lists. -/
def dlgEx : DialogState :=
  ⟨["Nanometer", "Jansky"], [nm, Jy], ["Nanometer", "Hertz"], [nm, Hz]⟩

/-- Example plotted series list: one series with Jy flux on an nm axis. -/
def itemsEx : List PlotItemM := [⟨Jy, nm, [400, 900]⟩]

/-- Example plot-widget display units. -/
def pwEx : PlotWidgetS := ⟨Jy, nm⟩

/-- Example `PlotDataItem` display state. -/
def pdi0 : PdiState := ⟨"#000000", 1, 0, false⟩

/-! Theorems. -/

/-- Any status produced by `_get_target_name` starts with "Data: " and is
therefore never one of the failure statuses. -/
theorem getTargetName_ne_single (name : String) (r : Option SRegion) :
    getTargetName name r ≠ "Region over single value." := by
  have hp : ∀ s : String, ("Data: " ++ s) ≠ "Region over single value." := by
    intro s hEq
    have h := congrArg String.data hEq
    rw [String.data_append] at h
    simp at h
  cases r with
  | none => exact hp name
  | some rr => exact hp _

/-- C6: `clip_region` fails exactly on regions entirely outside the
spectral-axis domain (`lower > axis.max()` or `upper < axis.min()`);
otherwise it returns the region with each bound clipped into the domain
(`lower` raised to `axis.min()` if below it, `upper` lowered to
`axis.max()` if above it, in-domain bounds unchanged). -/
theorem clip_region_correct (axis : List ℚ) (r : SRegion) :
    (clipRegion axis r = none ↔
      r.lower > axisMax axis ∨ r.upper < axisMin axis) ∧
    (¬(r.lower > axisMax axis ∨ r.upper < axisMin axis) →
      clipRegion axis r =
        some ⟨max r.lower (axisMin axis), min r.upper (axisMax axis), r.unit⟩) := by
  constructor
  · constructor
    · intro h
      by_contra hc
      rw [clipRegion, if_neg hc] at h
      exact Option.some_ne_none _ h
    · intro h
      rw [clipRegion, if_pos h]
  · intro h
    rw [clipRegion, if_neg h]
    have h1 : (if r.lower < axisMin axis then axisMin axis else r.lower)
        = max r.lower (axisMin axis) := by
      rcases lt_or_ge r.lower (axisMin axis) with hl | hl
      · rw [if_pos hl, max_eq_right hl.le]
      · rw [if_neg (not_lt.2 hl), max_eq_left hl]
    have h2 : (if r.upper > axisMax axis then axisMax axis else r.upper)
        = min r.upper (axisMax axis) := by
      rcases lt_or_ge (axisMax axis) r.upper with hu | hu
      · rw [if_pos hu, min_eq_right hu.le]
      · rw [if_neg (not_lt.2 hu), min_eq_left hu]
    rw [h1, h2]

/-- Witness for C6 at a concrete axis and region needing both clips. -/
theorem clip_region_correct_witness :
    clipRegion exampleAxis ⟨350, 950, nm⟩ = some ⟨400, 900, nm⟩ := by
  have h := (clip_region_correct exampleAxis ⟨350, 950, nm⟩).2 (by decide)
  have he : (⟨max (350 : ℚ) (axisMin exampleAxis),
      min (950 : ℚ) (axisMax exampleAxis), nm⟩ : SRegion) = ⟨400, 900, nm⟩ := by
    decide
  rw [he] at h
  exact h

/-- C7: `pos_to_spectral_region` yields no region for non-quantity input,
unitless input, or equal bounds; reversed bounds are swapped ascending;
the reversed selection [700, 400] nm on a spectrum spanning [400, 900] nm
yields the valid region [400, 700] nm, unchanged by clipping. -/
theorem pos_to_spectral_region_correct (uu : AUnit) (a b : ℚ) :
    posToSpectralRegion RawPos.notQuantity = none ∧
    (uu.isEmptyUnit = true → posToSpectralRegion (RawPos.q uu a b) = none) ∧
    (a = b → posToSpectralRegion (RawPos.q uu a b) = none) ∧
    (uu.isEmptyUnit = false → a > b →
      posToSpectralRegion (RawPos.q uu a b) = some ⟨b, a, uu⟩) ∧
    (posToSpectralRegion (RawPos.q nm 700 400) = some ⟨400, 700, nm⟩ ∧
     clipRegion exampleAxis ⟨400, 700, nm⟩ = some ⟨400, 700, nm⟩) := by
  refine ⟨rfl, ?_, ?_, ?_, by decide, by decide⟩
  · intro h
    simp [posToSpectralRegion, h]
  · intro h
    simp [posToSpectralRegion, h]
  · intro h1 h2
    rw [posToSpectralRegion]
    rw [if_neg (by simp [h1, ne_of_gt h2]), if_pos h2]

/-- Witness for C7: each rejection hypothesis and the swap hypothesis
discharged at concrete inputs. -/
theorem pos_to_spectral_region_correct_witness :
    posToSpectralRegion (RawPos.q emptyUnit 1 2) = none ∧
    posToSpectralRegion (RawPos.q nm 5 5) = none ∧
    posToSpectralRegion (RawPos.q nm 5 3) = some ⟨3, 5, nm⟩ := by
  refine ⟨?_, ?_, ?_⟩
  · exact (pos_to_spectral_region_correct emptyUnit 1 2).2.1 (by decide)
  · exact (pos_to_spectral_region_correct nm 5 5).2.2.1 rfl
  · exact (pos_to_spectral_region_correct nm 5 3).2.2.2.1 (by decide) (by decide)

/-- C2 counterexample: with a non-empty native unit on the record, an
unset (None) candidate unit FAILS both compatibility checks, contrary to
the claim that an empty/unset unit on either side always passes. -/
theorem unit_compat_unset_candidate_cex :
    isDataUnitCompatible ⟨Jy, nm, [400, 900]⟩ none = false ∧
    isSpectralAxisUnitCompatible ⟨Jy, nm, [400, 900]⟩ none = false := by
  decide

/-- C2 amended: the compatibility checks succeed unconditionally whenever
the record's own native unit is empty; an unset candidate against a
non-empty native unit fails. -/
theorem unit_compat_empty_native (it : PlotItemM) (cand : Option AUnit) :
    (it.fluxUnit.isEmptyUnit = true → isDataUnitCompatible it cand = true) ∧
    (it.spectralAxisUnit.isEmptyUnit = true →
      isSpectralAxisUnitCompatible it cand = true) ∧
    (it.fluxUnit.isEmptyUnit = false → isDataUnitCompatible it none = false) ∧
    (it.spectralAxisUnit.isEmptyUnit = false →
      isSpectralAxisUnitCompatible it none = false) := by
  refine ⟨?_, ?_, ?_, ?_⟩
  · intro h
    simp [isDataUnitCompatible, h]
  · intro h
    simp [isSpectralAxisUnitCompatible, h]
  · intro h
    simp [isDataUnitCompatible, h]
  · intro h
    simp [isSpectralAxisUnitCompatible, h]

/-- Witness for C2's amended theorem at concrete items. -/
theorem unit_compat_empty_native_witness :
    isDataUnitCompatible ⟨emptyUnit, emptyUnit, []⟩ none = true ∧
    isSpectralAxisUnitCompatible ⟨emptyUnit, emptyUnit, []⟩ none = true ∧
    isDataUnitCompatible ⟨Jy, nm, [400, 900]⟩ none = false := by
  refine ⟨?_, ?_, ?_⟩
  · exact (unit_compat_empty_native ⟨emptyUnit, emptyUnit, []⟩ none).1 (by decide)
  · exact (unit_compat_empty_native ⟨emptyUnit, emptyUnit, []⟩ none).2.1 (by decide)
  · exact (unit_compat_empty_native ⟨Jy, nm, [400, 900]⟩ none).2.2.1 (by decide)

/-- C9 counterexample: the zorder setter notifies the owning record but
emits NO series-side change signal (the class declares none for zorder),
contrary to the claim that it emits the series' own notification too. -/
theorem plot_item_zorder_no_series_signal_cex :
    Notif.recordDataChanged ∈ (setZorder pdi0 5).2 ∧
    ((setZorder pdi0 5).2.all fun n => !n.isSeriesNotif) = true := by
  decide

/-- C9 amended: the color and width setters emit the series' own change
signal followed by a change notification on the owning record; the zorder
setter notifies only the owning record; the visible setter emits only the
series' visibility signal and never notifies the record. -/
theorem plot_item_notification_targets
    (s : PdiState) (c : String) (wv z : Int) (b : Bool) :
    (setColor s c).1 = { s with color := c } ∧
    (setColor s c).2 = [Notif.colorChanged c, Notif.recordDataChanged] ∧
    (setWidth s wv).2 = [Notif.widthChanged wv, Notif.recordDataChanged] ∧
    (setZorder s z).2 = [Notif.recordDataChanged] ∧
    (setVisible s b).2 = [Notif.visibilityChanged b] ∧
    Notif.recordDataChanged ∉ (setVisible s b).2 := by
  refine ⟨rfl, rfl, rfl, rfl, rfl, ?_⟩
  simp [setVisible]

/-- C10: the name setter touches only the name role, `set_data` touches
only the data role, and the identifier read back after any sequence of
such operations equals the identifier supplied at construction. -/
theorem data_item_identifier_immutable
    (name identifier : String) (d : SpectrumM) (ops : List DataItemOp) :
    (∀ (it : DataItemM) (v : String) (r : Nat), r ≠ nameRole →
      (setName it v).roles r = it.roles r) ∧
    (∀ (it : DataItemM) (dd : SpectrumM) (r : Nat), r ≠ dataRole →
      (setDataItemData it dd).roles r = it.roles r) ∧
    (ops.foldl applyOp (mkDataItem name identifier d)).identifier
      = some (DIValue.str identifier) := by
  refine ⟨?_, ?_, ?_⟩
  · intro it v r hr
    simp [setName, qsiSetData, hr]
  · intro it dd r hr
    simp [setDataItemData, qsiSetData, hr]
  · have hpres : ∀ (it : DataItemM) (op : DataItemOp),
        (applyOp it op).identifier = it.identifier := by
      intro it op
      cases op <;>
        simp [applyOp, setName, setDataItemData, qsiSetData, DataItemM.identifier,
          nameRole, idRole, dataRole, qtUserRole]
    have hfold : ∀ (l : List DataItemOp) (it : DataItemM),
        (l.foldl applyOp it).identifier = it.identifier := by
      intro l
      induction l with
      | nil => intro it; rfl
      | cons hd tl ih =>
        intro it
        rw [List.foldl_cons, ih, hpres]
    rw [hfold]
    simp [mkDataItem, qsiSetData, DataItemM.identifier, nameRole, idRole, dataRole,
      qtUserRole]

/-- Witness for C10 at a concrete item and operation sequence. -/
theorem data_item_identifier_immutable_witness :
    (setName (mkDataItem "a" "id0" specNm) "b").roles dataRole
      = (mkDataItem "a" "id0" specNm).roles dataRole ∧
    (([DataItemOp.rename "b", DataItemOp.replaceData specNm]).foldl applyOp
        (mkDataItem "a" "id0" specNm)).identifier = some (DIValue.str "id0") := by
  have h := data_item_identifier_immutable "a" "id0" specNm
    [DataItemOp.rename "b", DataItemOp.replaceData specNm]
  exact ⟨h.1 _ "b" dataRole (by decide), h.2.2⟩

/-- C3: on any non-empty flux, `compute_stats` returns a mapping with
exactly the eight keys mean, median, stddev, rms, snr, total, maxval,
minval; on flux = [1,2,3,4,5] it returns mean = 3, median = 3,
stddev = √2 (population), rms = √11, snr = 3/√11, total = 12
(trapezoidal, unit spacing), maxval = 5, minval = 1. -/
theorem compute_stats_keys_and_values (flux : List ℚ) (h : flux ≠ []) :
    (∃ s, computeStats flux = some s ∧
      s.map Prod.fst =
        ["mean", "median", "stddev", "rms", "snr", "total", "maxval", "minval"]) ∧
    computeStats [1, 2, 3, 4, 5] =
      some [("mean", StatVal.val 3), ("median", StatVal.val 3),
            ("stddev", StatVal.sqrtVal 2), ("rms", StatVal.sqrtVal 11),
            ("snr", StatVal.overSqrt 3 11), ("total", StatVal.val 12),
            ("maxval", StatVal.val 5), ("minval", StatVal.val 1)] := by
  constructor
  · rw [computeStats, if_neg (by simpa using h)]
    exact ⟨_, rfl, by simp⟩
  · have hmean : npMean [1, 2, 3, 4, 5] = 3 := by norm_num [npMean]
    have hmed : npMedian [1, 2, 3, 4, 5] = 3 := by decide
    have hvar : npVariance [1, 2, 3, 4, 5] = 2 := by norm_num [npVariance, npMean]
    have hms : npMeanSquare [1, 2, 3, 4, 5] = 11 := by norm_num [npMeanSquare]
    have htr : npTrapz [1, 2, 3, 4, 5] = 12 := by norm_num [npTrapz]
    have hmax : npMax [1, 2, 3, 4, 5] = 5 := by decide
    have hmin : npMin [1, 2, 3, 4, 5] = 1 := by decide
    rw [computeStats, if_neg (by decide), hmean, hmed, hvar, hms, htr, hmax, hmin]

/-- Witness for C3: the non-emptiness hypothesis discharged at
flux = [1,2,3,4,5]. -/
theorem compute_stats_keys_and_values_witness :
    ∃ s, computeStats [1, 2, 3, 4, 5] = some s ∧
      s.map Prod.fst =
        ["mean", "median", "stddev", "rms", "snr", "total", "maxval", "minval"] :=
  (compute_stats_keys_and_values [1, 2, 3, 4, 5] (by decide)).1

/-- A list-level `all` is false when some member fails the predicate. -/
theorem all_eq_false_of_mem {α : Type} (l : List α) (p : α → Bool) (x : α)
    (hmem : x ∈ l) (hx : p x = false) : l.all p = false := by
  rcases Bool.eq_false_or_eq_true (l.all p) with hcase | hcase
  · have := List.all_eq_true.mp hcase x hmem
    rw [hx] at this
    exact absurd this (by simp)
  · exact hcase

/-- C4: if the resolved flux unit is rejected by any plotted series'
`is_data_unit_compatible`, `on_accepted` aborts with no plot-widget unit
mutated and returns False; a subsequent request that every series accepts
on both axes still succeeds with both units applied. -/
theorem on_accepted_flux_incompatible_aborts
    (dlg : DialogState) (items : List PlotItemM) (pw : PlotWidgetS)
    (fluxChoice spectralChoice : Choice) (du : AUnit)
    (hres : resolveChoice dlg.dataTitles dlg.dataUnits fluxChoice = some du)
    (hbad : ∃ it ∈ items, isDataUnitCompatible it (some du) = false) :
    onAccepted dlg items pw fluxChoice spectralChoice = (pw, false) ∧
    ∀ fc2 sc2 du2 su2,
      resolveChoice dlg.dataTitles dlg.dataUnits fc2 = some du2 →
      resolveChoice dlg.spectralTitles dlg.spectralUnits sc2 = some su2 →
      (∀ it ∈ items, isDataUnitCompatible it (some du2) = true) →
      (∀ it ∈ items, isSpectralAxisUnitCompatible it (some su2) = true) →
      onAccepted dlg items pw fc2 sc2
        = ({ dataUnit := du2, spectralAxisUnit := su2 }, true) := by
  constructor
  · rcases hbad with ⟨it, hmem, hfalse⟩
    have hall : items.all (fun x => isDataUnitCompatible x (some du)) = false :=
      all_eq_false_of_mem items _ it hmem hfalse
    simp only [onAccepted, hres, hall]
    simp
  · intro fc2 sc2 du2 su2 h1 h2 h3 h4
    have ha1 : items.all (fun x => isDataUnitCompatible x (some du2)) = true :=
      List.all_eq_true.mpr h3
    have ha2 : items.all (fun x => isSpectralAxisUnitCompatible x (some su2)) = true :=
      List.all_eq_true.mpr h4
    simp only [onAccepted, h1, h2, ha1, ha2]
    simp

/-- Witness for C4: a concrete rejected request followed by a concrete
accepted one. -/
theorem on_accepted_flux_incompatible_aborts_witness :
    onAccepted dlgEx itemsEx pwEx (Choice.combo "Nanometer") (Choice.combo "Nanometer")
      = (pwEx, false) ∧
    onAccepted dlgEx itemsEx pwEx (Choice.combo "Jansky") (Choice.combo "Hertz")
      = ({ dataUnit := Jy, spectralAxisUnit := Hz }, true) := by
  have h := on_accepted_flux_incompatible_aborts dlgEx itemsEx pwEx
    (Choice.combo "Nanometer") (Choice.combo "Nanometer") nm (by decide)
    ⟨⟨Jy, nm, [400, 900]⟩, by decide, by decide⟩
  exact ⟨h.1, h.2 _ _ Jy Hz (by decide) (by decide) (by decide) (by decide)⟩

/-- C5 counterexample: with a valid, every-series-compatible spectral-axis
candidate, a failure on the flux unit still aborts the WHOLE operation —
the spectral-axis display unit does not change — contrary to the claim
that the spectral-axis change still applies. -/
theorem on_accepted_flux_failure_blocks_spectral_cex :
    resolveChoice dlgEx.spectralTitles dlgEx.spectralUnits (Choice.combo "Hertz")
      = some Hz ∧
    (∀ it ∈ itemsEx, isSpectralAxisUnitCompatible it (some Hz) = true) ∧
    resolveChoice dlgEx.dataTitles dlgEx.dataUnits (Choice.combo "Nanometer")
      = some nm ∧
    (∃ it ∈ itemsEx, isDataUnitCompatible it (some nm) = false) ∧
    onAccepted dlgEx itemsEx pwEx (Choice.combo "Nanometer") (Choice.combo "Hertz")
      = (pwEx, false) ∧
    pwEx.spectralAxisUnit ≠ Hz := by
  decide

/-- C5 amended: both axes update with True only when both resolve and all
series accept both; a flux-axis failure (resolution or compatibility)
aborts the whole operation with nothing applied; a spectral-axis failure
after the flux unit was applied leaves the flux change in place and
returns False. -/
theorem on_accepted_axis_ordering
    (dlg : DialogState) (items : List PlotItemM) (pw : PlotWidgetS)
    (fc sc : Choice) :
    (∀ du su,
      resolveChoice dlg.dataTitles dlg.dataUnits fc = some du →
      resolveChoice dlg.spectralTitles dlg.spectralUnits sc = some su →
      (∀ it ∈ items, isDataUnitCompatible it (some du) = true) →
      (∀ it ∈ items, isSpectralAxisUnitCompatible it (some su) = true) →
      onAccepted dlg items pw fc sc
        = ({ dataUnit := du, spectralAxisUnit := su }, true)) ∧
    ((resolveChoice dlg.dataTitles dlg.dataUnits fc = none ∨
      ∃ du, resolveChoice dlg.dataTitles dlg.dataUnits fc = some du ∧
        ∃ it ∈ items, isDataUnitCompatible it (some du) = false) →
      onAccepted dlg items pw fc sc = (pw, false)) ∧
    (∀ du,
      resolveChoice dlg.dataTitles dlg.dataUnits fc = some du →
      (∀ it ∈ items, isDataUnitCompatible it (some du) = true) →
      (resolveChoice dlg.spectralTitles dlg.spectralUnits sc = none ∨
       ∃ su, resolveChoice dlg.spectralTitles dlg.spectralUnits sc = some su ∧
         ∃ it ∈ items, isSpectralAxisUnitCompatible it (some su) = false) →
      onAccepted dlg items pw fc sc = ({ pw with dataUnit := du }, false)) := by
  refine ⟨?_, ?_, ?_⟩
  · intro du su h1 h2 h3 h4
    have ha1 : items.all (fun x => isDataUnitCompatible x (some du)) = true :=
      List.all_eq_true.mpr h3
    have ha2 : items.all (fun x => isSpectralAxisUnitCompatible x (some su)) = true :=
      List.all_eq_true.mpr h4
    simp only [onAccepted, h1, h2, ha1, ha2]
    simp
  · intro h
    rcases h with h | ⟨du, hres, it, hmem, hfalse⟩
    · simp only [onAccepted, h]
    · have hall : items.all (fun x => isDataUnitCompatible x (some du)) = false :=
        all_eq_false_of_mem items _ it hmem hfalse
      simp only [onAccepted, hres, hall]
      simp
  · intro du h1 h3 h
    have ha1 : items.all (fun x => isDataUnitCompatible x (some du)) = true :=
      List.all_eq_true.mpr h3
    rcases h with h | ⟨su, hres, it, hmem, hfalse⟩
    · simp only [onAccepted, h1, ha1, h]
      simp
    · have hall : items.all (fun x => isSpectralAxisUnitCompatible x (some su)) = false :=
        all_eq_false_of_mem items _ it hmem hfalse
      simp only [onAccepted, h1, ha1, hres, hall]
      simp

/-- Witness for C5's amended theorem: a spectral-axis failure after a
successful flux change leaves the flux unit applied. -/
theorem on_accepted_axis_ordering_witness :
    onAccepted dlgEx itemsEx ⟨ergScmA, nm⟩ (Choice.combo "Jansky") (Choice.custom "Jy")
      = (⟨Jy, nm⟩, false) :=
  (on_accepted_axis_ordering dlgEx itemsEx ⟨ergScmA, nm⟩
      (Choice.combo "Jansky") (Choice.custom "Jy")).2.2 Jy (by decide) (by decide)
    (Or.inr ⟨Jy, by decide, ⟨Jy, nm, [400, 900]⟩, by decide, by decide⟩)

/-- C1 counterexample: a frequency-unit region on a wavelength axis is
spectral-equivalent to the axis unit, yet FAILS `check_unit_compatibility`
— the source performs a plain `is_equivalent` with no equivalencies, not
a check under the spectral equivalency. -/
theorem check_unit_compatibility_spectral_equiv_cex :
    spectralEquiv nm Hz = true ∧ spectralEquiv Hz nm = true ∧
    checkUnitCompatibility specNm ⟨500, 600, Hz⟩ = false := by
  decide

/-- C1 amended: `check_unit_compatibility` passes exactly when the region
unit is plainly equivalent (same physical dimension, no equivalencies) to
the spectral-axis unit, and an incompatible region makes
`update_statistics` fail with the region-unit status and statistics
cleared. -/
theorem check_unit_compatibility_is_plain_equiv
    (spec : SpectrumM) (region : SRegion) (w : Workspace) (pos : RawPos) :
    (checkUnitCompatibility spec region = true ↔
      spec.axisUnit.dim = region.unit.dim) ∧
    (w.spec = some spec → w.selectedRegionPos = some pos →
      posToSpectralRegion pos = some region →
      checkUnitCompatibility spec region = false →
      updateStatistics w =
        ("Region units are not compatible with selected data\x27s spectral axis units.",
         none)) := by
  constructor
  · simp [checkUnitCompatibility, isEquivalentNoEq]
  · intro h1 h2 h3 h4
    simp only [updateStatistics, h1, h2, Option.some_bind, h3, h4]
    simp

/-- Witness for C1's amended theorem: a concrete workspace with a
frequency-unit region over a wavelength-axis spectrum. -/
theorem check_unit_compatibility_is_plain_equiv_witness :
    updateStatistics wBadUnit =
      ("Region units are not compatible with selected data\x27s spectral axis units.",
       none) :=
  (check_unit_compatibility_is_plain_equiv specNm ⟨500, 600, Hz⟩ wBadUnit
    (RawPos.q Hz 500 600)).2 rfl rfl (by decide) (by decide)

/-- C8: the status "Region over single value." (with statistics cleared)
is produced exactly when a region that survived the unit-compatibility
check and clipping maps both bounds to the same pixel index, while an
equal-bounds-at-input selection is rejected earlier by
`pos_to_spectral_region` (NoRegion) and never reaches pixel mapping,
clearing statistics on the distinct "Region has no units" path. -/
theorem region_single_value_paths (w : Workspace) :
    ((updateStatistics w).1 = "Region over single value." ↔
      ∃ spec region clipped,
        w.spec = some spec ∧
        w.selectedRegionPos.bind posToSpectralRegion = some region ∧
        checkUnitCompatibility spec region = true ∧
        clipRegion spec.axisValues region = some clipped ∧
        toPixelIndex spec.axisValues clipped.lower
          = toPixelIndex spec.axisValues clipped.upper) ∧
    ((updateStatistics w).1 = "Region over single value." →
      (updateStatistics w).2 = none) ∧
    (∀ (uu : AUnit) (a : ℚ), posToSpectralRegion (RawPos.q uu a a) = none) ∧
    (∀ (spec : SpectrumM) (uu : AUnit) (a : ℚ),
      w.spec = some spec → w.selectedRegionPos = some (RawPos.q uu a a) →
      w.hasRegion = true →
      updateStatistics w = ("Region has no units", none)) := by
  have hmain : ∀ spec region clipped,
      w.spec = some spec →
      w.selectedRegionPos.bind posToSpectralRegion = some region →
      checkUnitCompatibility spec region = true →
      clipRegion spec.axisValues region = some clipped →
      toPixelIndex spec.axisValues clipped.lower
        = toPixelIndex spec.axisValues clipped.upper →
      updateStatistics w = ("Region over single value.", none) := by
    intro spec region clipped hs hr hc hclip hidx
    simp only [updateStatistics, hs, hr, hc, hclip, hidx]
    simp
  have hchar : (updateStatistics w).1 = "Region over single value." →
      updateStatistics w = ("Region over single value.", none) ∧
      ∃ spec region clipped,
        w.spec = some spec ∧
        w.selectedRegionPos.bind posToSpectralRegion = some region ∧
        checkUnitCompatibility spec region = true ∧
        clipRegion spec.axisValues region = some clipped ∧
        toPixelIndex spec.axisValues clipped.lower
          = toPixelIndex spec.axisValues clipped.upper := by
    intro h
    unfold updateStatistics at h
    split at h
    · exact absurd h (by decide)
    next spec hs =>
      split at h
      next region hr =>
        split at h
        next hc =>
          split at h
          next hclip => exact absurd h (by decide)
          next clipped hclip =>
            split at h
            next hidx =>
              exact ⟨hmain spec region clipped hs hr hc hclip hidx,
                spec, region, clipped, hs, hr, hc, hclip, hidx⟩
            next hidx =>
              exact (getTargetName_ne_single spec.name (some region) h).elim
        next hc => exact absurd h (by decide)
      next hr =>
        split at h
        · exact absurd h (by decide)
        · exact (getTargetName_ne_single spec.name none h).elim
  refine ⟨⟨fun h => (hchar h).2, ?_⟩, fun h => by rw [(hchar h).1], ?_, ?_⟩
  · rintro ⟨spec, region, clipped, hs, hr, hc, hclip, hidx⟩
    rw [hmain spec region clipped hs hr hc hclip hidx]
  · intro uu a
    simp [posToSpectralRegion]
  · intro spec uu a hs hpos hhas
    simp only [updateStatistics, hs, hpos, Option.some_bind]
    simp [posToSpectralRegion, hhas]

/-- Witness for C8: a concrete workspace whose clipped region collapses
to one pixel, and a concrete equal-bounds selection. -/
theorem region_single_value_paths_witness :
    (updateStatistics wSingle).1 = "Region over single value." ∧
    (updateStatistics wSingle).2 = none ∧
    posToSpectralRegion (RawPos.q nm 500 500) = none ∧
    updateStatistics ⟨some specNm, some (RawPos.q nm 500 500), true⟩
      = ("Region has no units", none) := by
  have h := region_single_value_paths wSingle
  have hstat : (updateStatistics wSingle).1 = "Region over single value." :=
    h.1.2 ⟨specNm, ⟨500, 600, nm⟩, ⟨500, 600, nm⟩, rfl, by decide, by decide,
      by decide, by decide⟩
  have h2 := region_single_value_paths ⟨some specNm, some (RawPos.q nm 500 500), true⟩
  exact ⟨hstat, h.2.1 hstat, h.2.2.1 nm 500,
    h2.2.2.2 specNm nm 500 rfl rfl rfl⟩

end Specviz
